import Mathlib

/-!
Shallow embedding of the lead-screening core of the agentenaval repository:
`src/utils/validators.py`, `src/services/regional_validation.py`,
`src/services/openai_agent.py` (the pure eligibility check and the shape of the
generation capability), `src/models/lead.py`, `src/models/conversation.py`,
and `src/services/lead_screening.py`.

Machine integers do not occur (Python ints are unbounded); times are modelled
as natural numbers counting seconds; the SQLAlchemy session is modelled by an
explicit database value threaded through the operations, with a commit point
wherever the source calls `self.db.commit()`.
-/

namespace AgenteNaval

/-! ### Character and string helpers (Python string methods used by the source) -/

/-- Python `str.upper()` restricted to ASCII letters, which is all the source
applies it to (two-letter region codes). -/
def upperChar (c : Char) : Char :=
  if 97 ≤ c.toNat ∧ c.toNat ≤ 122 then Char.ofNat (c.toNat - 32) else c

/-- Python `str.upper()` on a whole string. -/
def upperStr (s : String) : String :=
  String.mk (s.data.map upperChar)

/-- Python `re.sub(r"\D", "", s)`: keep only the (ASCII) digits of `s`. -/
def digitsOf (s : String) : List Char :=
  s.data.filter Char.isDigit

/-- Python `s.split("@")[0]`: the part of `s` before the first `@`. -/
def beforeAt (s : String) : String :=
  String.mk (s.data.takeWhile (fun c => c ≠ '@'))

/-! ### `src/utils/validators.py` -/

/-- `validate_phone` (validators.py lines 8-34): strip non-digits, require
10-15 digits, reject all-zero numbers. -/
def validate_phone (phone : String) : Bool :=
  let clean := digitsOf phone
  if clean.length < 10 || clean.length > 15 then false
  else if clean.all (fun c => c == '0') then false
  else true

/-- `extrair_telefone_whatsapp` (validators.py lines 134-155): empty JID yields
nothing; otherwise take the part before `@` and return it unchanged when it
validates as a phone. -/
def extrair_telefone_whatsapp (remote_jid : String) : Option String :=
  if remote_jid = "" then none
  else
    let phone := beforeAt remote_jid
    if validate_phone phone then some phone else none

/-- `sanitize_text` (validators.py lines 113-131): drop control characters
below 32 except newline and tab, then truncate to `max_length`. -/
def sanitize_text (text : String) (max_length : Nat) : String :=
  if text = "" then ""
  else String.mk (((text.data.filter (fun c => 32 ≤ c.toNat || c = '\n' || c = '\t')).take max_length))

/-! ### `src/services/regional_validation.py` -/

/-- `RegionalValidator.REGIOES_BRASIL` (regional_validation.py lines 17-48). -/
def REGIOES_BRASIL : List (String × String) :=
  [("RS", "sul"), ("SC", "sul"), ("PR", "sul"),
   ("SP", "sudeste"), ("RJ", "sudeste"), ("MG", "sudeste"), ("ES", "sudeste"),
   ("GO", "centro-oeste"), ("MT", "centro-oeste"), ("MS", "centro-oeste"), ("DF", "centro-oeste"),
   ("BA", "nordeste"), ("PE", "nordeste"), ("CE", "nordeste"), ("RN", "nordeste"),
   ("PB", "nordeste"), ("AL", "nordeste"), ("SE", "nordeste"), ("PI", "nordeste"),
   ("MA", "nordeste"),
   ("AP", "norte"), ("AM", "norte"), ("RR", "norte"), ("AC", "norte"), ("TO", "norte")]

/-- Python `dict.get(k, default)` over an association list. -/
def dictGet (m : List (String × String)) (k : String) (dflt : String) : String :=
  match m.find? (fun p => p.1 == k) with
  | some p => p.2
  | none => dflt

/-- Python `str.title()` for the ASCII strings it is applied to: the first
letter of each alphabetic run is upper-cased, the rest lower-cased. -/
def pyTitleAux : List Char → Bool → List Char
  | [], _ => []
  | c :: cs, prevAlpha =>
    if c.isAlpha then
      (if prevAlpha then c.toLower else upperChar c) :: pyTitleAux cs true
    else c :: pyTitleAux cs false

def pyTitle (s : String) : String :=
  String.mk (pyTitleAux s.data false)

/-- `RegionalValidator.is_eligible` (regional_validation.py lines 55-69),
parametrised by the configured eligible set. -/
def is_eligible (eligible_regions : List String) (region_code : String) : Bool :=
  if region_code = "" then false
  else (eligible_regions.map upperStr).contains (upperStr region_code)

/-- `RegionalValidator.is_interest_region` (regional_validation.py lines 71-85). -/
def is_interest_region (interest_regions : List String) (region_code : String) : Bool :=
  if region_code = "" then false
  else (interest_regions.map upperStr).contains (upperStr region_code)

/-- `RegionalValidator.get_region_status` (regional_validation.py lines 87-113). -/
def get_region_status (eligible_regions interest_regions : List String)
    (region_code : String) : String × String :=
  if region_code = "" then ("unknown", "Região não informada")
  else
    let region_upper := upperStr region_code
    if is_eligible eligible_regions region_code then
      let regiao_nome := dictGet REGIOES_BRASIL region_upper "desconhecida"
      ("eligible", "Elegível - Região " ++ pyTitle regiao_nome)
    else if is_interest_region interest_regions region_code then
      let regiao_nome := dictGet REGIOES_BRASIL region_upper "desconhecida"
      ("interest", "Região em avaliação - " ++ pyTitle regiao_nome)
    else
      ("unknown", "Região " ++ region_upper ++ " desconhecida")

/-- Default `ELIGIBLE_REGIONS` from `src/config.py`. -/
def default_eligible_regions : List String :=
  ["RS", "SC", "PR", "SP", "RJ", "MG", "ES", "GO", "MT", "MS", "DF"]

/-- Default `INTEREST_REGIONS` from `src/config.py`. -/
def default_interest_regions : List String :=
  ["BA", "PE", "CE", "RN", "PB", "AL", "SE", "PI", "MA", "AP", "AM", "RR", "AC", "TO"]

/-! ### `OpenAIAgent.check_eligibility` (openai_agent.py lines 161-189)

This method performs no API call: it is a pure membership test over the
configured eligible set (the Python `region_upper` is `None` when the region is
falsy, and `None in [...]` is `False`). -/

def check_eligibility (lead_region : String) (eligible_regions : List String) :
    Bool × String :=
  let region_upper : Option String :=
    if lead_region = "" then none else some (upperStr lead_region)
  let is_el :=
    match region_upper with
    | none => false
    | some ru => (eligible_regions.map upperStr).contains ru
  if is_el then
    (true, "Ótimo! A região " ++ lead_region ++ " é elegível para franquias.")
  else
    (false, "A região " ++ lead_region ++ " ainda não está aberta para implantações, mas vamos registrar seu interesse para futuras expansões.")

/-! ### `src/models/lead.py` and `src/models/conversation.py` -/

/-- `LeadStatus` (lead.py lines 15-24). -/
inductive LeadStatus where
  | NOVO
  | EM_TRIAGEM
  | AGUARDANDO_RESPOSTA
  | AGENDADO
  | NAO_ELEGIVEL
  | SEM_RESPOSTA
  | RECUPERANDO
  | INATIVO
deriving DecidableEq

/-- A row of the `leads` table (lead.py lines 27-81).  Ids are naturals,
times are naturals (seconds); nullable columns are `Option`. -/
structure LeadRow where
  id : Nat
  phone : String
  status : LeadStatus
  regiao : Option String
  elegivel : Option Bool
  tentativas_follow_up : Nat
  data_ultimo_follow_up : Option Nat
  data_proximo_follow_up : Option Nat
  data_contato : Nat
  data_ultima_interacao : Nat
deriving DecidableEq

/-- `Lead.mark_for_followup` (lead.py lines 92-95): due time becomes
`utcnow + hours_from_now` (here in seconds). -/
def LeadRow.mark_for_followup (l : LeadRow) (hours_from_now : Nat) (now : Nat) : LeadRow :=
  { l with data_proximo_follow_up := some (now + hours_from_now * 3600) }

/-- A row of the `conversations` table (conversation.py lines 14-48). -/
structure ConversationRow where
  id : Nat
  lead_id : Nat
  mensagem_entrada : String
  mensagem_saida : String
  tokens_input : Option Nat
  tokens_output : Option Nat
  tokens_total : Option Nat
  custo_estimado : Option Nat
  tempo_resposta_ms : Option Nat
  timestamp : Nat
deriving DecidableEq

/-- The committed database state: the two tables the screening service
touches. -/
structure DB where
  leads : List LeadRow
  conversations : List ConversationRow
deriving DecidableEq

/-- Committing an update of one lead row (SQLAlchemy writes the mutated object
back to its row, selected by primary key). -/
def writeLead (db : DB) (u : LeadRow) : DB :=
  { db with leads := db.leads.map (fun x => if x.id == u.id then u else x) }

/-- A fresh primary key for an inserted lead (the source uses `uuid4`; any
generator avoiding collisions is a faithful model). -/
def freshLeadId (db : DB) : Nat :=
  (db.leads.map (fun l => l.id)).foldr Nat.max 0 + 1

/-- A fresh primary key for an inserted conversation. -/
def freshConvId (db : DB) : Nat :=
  (db.conversations.map (fun c => c.id)).foldr Nat.max 0 + 1

/-- The fresh `Lead(...)` row inserted for an unseen contact
(lead_screening.py lines 67-71): status `NOVO`, contact time `now`; the other
columns take their schema defaults. -/
def newLead (db : DB) (phone : String) (now : Nat) : LeadRow :=
  { id := freshLeadId db, phone := phone, status := .NOVO,
    regiao := none, elegivel := none, tentativas_follow_up := 0,
    data_ultimo_follow_up := none, data_proximo_follow_up := none,
    data_contato := now, data_ultima_interacao := now }

/-! ### `src/services/lead_screening.py` -/

/-- One role-tagged entry of the conversation history handed to the agent. -/
structure ChatTurn where
  role : String
  content : String
deriving DecidableEq

/-- Ordering of conversation rows by their `timestamp` column
(`order_by(Conversation.timestamp)`). -/
def tsLe (a b : ConversationRow) : Prop :=
  a.timestamp ≤ b.timestamp

instance : DecidableRel tsLe := fun a b => Nat.decLe a.timestamp b.timestamp

/-- The loop body of `_build_conversation_history`: two entries per row,
`user` with the inbound text then `assistant` with the outbound text. -/
def historyTurns : List ConversationRow → List ChatTurn
  | [] => []
  | c :: cs =>
    ⟨"user", c.mensagem_entrada⟩ :: ⟨"assistant", c.mensagem_saida⟩ :: historyTurns cs

/-- `LeadScreening._build_conversation_history` (lead_screening.py lines
224-254): rows of the lead, ordered by `timestamp` ascending, limited to 10,
then flattened into user/assistant turns. -/
def _build_conversation_history (db : DB) (lead_id : Nat) : List ChatTurn :=
  let conversations :=
    ((db.conversations.filter (fun c => c.lead_id == lead_id)).insertionSort tsLe).take 10
  historyTurns conversations

/-- Usage metadata returned by the generation capability
(`OpenAIAgent.generate_response`); only the fields the screening service
stores or returns are modelled. -/
structure GenMeta where
  tokens_input : Option Nat
  tokens_output : Option Nat
  tokens_total : Option Nat
  cost_cents : Option Nat
  latency_ms : Option Nat
deriving DecidableEq

/-- The outcome of the external generation call: `.ok` carries the reply text
and metadata, `.error` carries `str(e)` of the raised `Timeout`/`APIError`
(openai_agent.py lines 137-159 re-raise on failure). -/
abbrev GenOutcome := Except String (String × GenMeta)

/-- Result dictionary of `receive_lead_message`. -/
inductive RMResult where
  | failure (error : String)
  | success (lead_id : Nat) (phone : String) (response : String)
      (tokens : Option Nat) (latency_ms : Option Nat)
deriving DecidableEq

/-- `LeadScreening.receive_lead_message` (lead_screening.py lines 33-131).
The generation call is passed in as its outcome `gen`; `now` is `utcnow`.
Commit points of the source (lines 73, 80, 108, 114) are where the database
value is updated; the uncommitted mutation of `data_ultima_interacao`
(line 84) only reaches the database at the commit on line 108, hence is lost
when generation fails. -/
def receive_lead_message (db : DB) (gen : GenOutcome) (now : Nat)
    (remote_jid message_text : String) : DB × RMResult :=
  match extrair_telefone_whatsapp remote_jid with
  | none => (db, .failure "Formato de telefone inválido")
  | some phone =>
    let clean_message := sanitize_text message_text 5000
    let found := db.leads.find? (fun l => l.phone == phone)
    let db1 : DB :=
      match found with
      | some _ => db
      | none => { db with leads := db.leads ++ [newLead db phone now] }
    let lead0 : LeadRow :=
      match found with
      | some l => l
      | none => newLead db phone now
    let lead1 : LeadRow :=
      if lead0.status = .NOVO then { lead0 with status := .EM_TRIAGEM } else lead0
    let db2 : DB :=
      if lead0.status = .NOVO then writeLead db1 lead1 else db1
    let lead2 : LeadRow := { lead1 with data_ultima_interacao := now }
    let _history := _build_conversation_history db2 lead2.id
    match gen with
    | .error e => (db2, .failure e)
    | .ok (response_text, metadata) =>
      let conversation : ConversationRow :=
        { id := freshConvId db2, lead_id := lead2.id,
          mensagem_entrada := clean_message, mensagem_saida := response_text,
          tokens_input := metadata.tokens_input, tokens_output := metadata.tokens_output,
          tokens_total := metadata.tokens_total, custo_estimado := metadata.cost_cents,
          tempo_resposta_ms := metadata.latency_ms, timestamp := now }
      let db3 : DB :=
        writeLead { db2 with conversations := db2.conversations ++ [conversation] } lead2
      let db4 : DB :=
        if lead2.status = .AGUARDANDO_RESPOSTA then
          writeLead db3 (lead2.mark_for_followup 2 now)
        else db3
      (db4, .success lead2.id phone response_text metadata.tokens_total metadata.latency_ms)

/-- The committed database state and session lead object right before the
generation call: steps 3-4 of the algorithm (lead_screening.py lines 62-81):
find-or-create the lead for the canonical phone, then advance `NOVO` to
`EM_TRIAGEM`; both changes are committed before `generate_response` runs. -/
def resolve_lead_state (db : DB) (now : Nat) (phone : String) : DB × LeadRow :=
  let found := db.leads.find? (fun l => l.phone == phone)
  let db1 : DB :=
    match found with
    | some _ => db
    | none => { db with leads := db.leads ++ [newLead db phone now] }
  let lead0 : LeadRow :=
    match found with
    | some l => l
    | none => newLead db phone now
  let lead1 : LeadRow :=
    if lead0.status = .NOVO then { lead0 with status := .EM_TRIAGEM } else lead0
  let db2 : DB :=
    if lead0.status = .NOVO then writeLead db1 lead1 else db1
  (db2, lead1)

/-- Result dictionary of `validate_lead_eligibility`. -/
inductive VEResult where
  | failure (error : String)
  | success (lead_id : Nat) (is_eligible : Bool) (description : String)
deriving DecidableEq

/-- `LeadScreening.validate_lead_eligibility` (lead_screening.py lines
133-195), parametrised by the configured eligible set
(`self.validator.eligible_regions`).  The Python `if not lead.regiao` is true
for both `None` and the empty string. -/
def validate_lead_eligibility (eligible_regions : List String) (db : DB)
    (lead_id : Nat) : DB × VEResult :=
  match db.leads.find? (fun l => l.id == lead_id) with
  | none => (db, .failure "Lead não encontrado")
  | some lead =>
    if lead.regiao = none ∨ lead.regiao = some "" then
      (db, .failure "Região não informada")
    else
      let regiao := lead.regiao.getD ""
      let result := check_eligibility regiao eligible_regions
      let lead1 : LeadRow :=
        { lead with
          elegivel := some result.1,
          status := if result.1 then .AGUARDANDO_RESPOSTA else .NAO_ELEGIVEL }
      (writeLead db lead1, .success lead_id result.1 result.2)

/-! ### Concrete data used by witnesses and counterexamples -/

/-- A lead already past screening, used by the history examples. -/
def exLead : LeadRow :=
  { id := 1, phone := "5511999999999", status := .EM_TRIAGEM, regiao := none,
    elegivel := none, tentativas_follow_up := 0, data_ultimo_follow_up := none,
    data_proximo_follow_up := none, data_contato := 0, data_ultima_interacao := 0 }

/-- The `i`-th stored conversation row of the history examples: timestamp `i`,
inbound text `u<i>`, outbound text `a<i>`. -/
def mkConv (i : Nat) : ConversationRow :=
  { id := i + 1, lead_id := 1, mensagem_entrada := "u" ++ toString i,
    mensagem_saida := "a" ++ toString i, tokens_input := none, tokens_output := none,
    tokens_total := none, custo_estimado := none, tempo_resposta_ms := none,
    timestamp := i }

/-- A database holding one lead with 15 stored conversation rows. -/
def exDB15 : DB :=
  { leads := [exLead], conversations := (List.range 15).map mkConv }

/-- A successful generation outcome with empty metadata. -/
def genOk : GenOutcome :=
  .ok ("resposta", { tokens_input := none, tokens_output := none,
                     tokens_total := none, cost_cents := none, latency_ms := none })

/-- An empty database. -/
def emptyDB : DB := { leads := [], conversations := [] }

/-- A database holding one lead from Bahia with a region set, as in the spec
scenario for contact `5575999999999`. -/
def baDB : DB :=
  { leads := [{ id := 1, phone := "5575999999999", status := .EM_TRIAGEM,
                regiao := some "BA", elegivel := none, tentativas_follow_up := 0,
                data_ultimo_follow_up := none, data_proximo_follow_up := none,
                data_contato := 0, data_ultima_interacao := 0 }],
    conversations := [] }

/-- A database holding one lead awaiting a response, with a stale follow-up
deadline that must be overwritten. -/
def awaitingDB : DB :=
  { leads := [{ id := 1, phone := "5511999999999", status := .AGUARDANDO_RESPOSTA,
                regiao := some "SP", elegivel := some true, tentativas_follow_up := 3,
                data_ultimo_follow_up := some 50, data_proximo_follow_up := some 60,
                data_contato := 0, data_ultima_interacao := 0 }],
    conversations := [] }

/-! ### Helper lemmas -/

theorem toNat_ofNat_valid {n : Nat} (h : n.isValidChar) : (Char.ofNat n).toNat = n := by
  unfold Char.ofNat
  rw [dif_pos h]
  unfold Char.ofNatAux Char.toNat
  simp [UInt32.toNat, BitVec.toNat_ofNatLt]

theorem upperChar_idem (c : Char) : upperChar (upperChar c) = upperChar c := by
  unfold upperChar
  by_cases h : 97 ≤ c.toNat ∧ c.toNat ≤ 122
  · rw [if_pos h]
    have hv : (c.toNat - 32).isValidChar := Or.inl (by omega)
    have ht : (Char.ofNat (c.toNat - 32)).toNat = c.toNat - 32 := toNat_ofNat_valid hv
    rw [if_neg (by rw [ht]; omega)]
  · rw [if_neg h, if_neg h]

theorem upperStr_idem (s : String) : upperStr (upperStr s) = upperStr s := by
  refine congrArg String.mk ?_
  show (s.data.map upperChar).map upperChar = s.data.map upperChar
  rw [List.map_map]
  exact List.map_congr_left (fun c _ => by simp [Function.comp, upperChar_idem])

theorem upperStr_eq_empty_iff (s : String) : upperStr s = "" ↔ s = "" := by
  rcases s with ⟨l⟩
  constructor
  · intro h
    have hd : l.map upperChar = [] := congrArg String.data h
    have : l = [] := by simpa using hd
    rw [this]
  · intro h
    rw [h]; rfl

theorem historyTurns_length (l : List ConversationRow) :
    (historyTurns l).length = 2 * l.length := by
  induction l with
  | nil => rfl
  | cons c cs ih =>
    simp [historyTurns, ih]
    omega

theorem check_eligibility_fst (region : String) (eligible_regions : List String) :
    (check_eligibility region eligible_regions).1 = is_eligible eligible_regions region := by
  unfold check_eligibility is_eligible
  by_cases h : region = ""
  · simp [h]
  · rw [if_neg h, if_neg h]
    simp only []
    by_cases hc : (eligible_regions.map upperStr).contains (upperStr region) = true
    · rw [if_pos hc, hc]
    · rw [if_neg hc]
      simp only [Bool.not_eq_true] at hc
      rw [hc]

theorem writeLead_conversations (db : DB) (u : LeadRow) :
    (writeLead db u).conversations = db.conversations := rfl

theorem mem_writeLead_of_mem {db : DB} {u x : LeadRow}
    (hx : x ∈ db.leads) (hid : x.id = u.id) : u ∈ (writeLead db u).leads := by
  have h := List.mem_map_of_mem (fun y => if y.id == u.id then u else y) hx
  simpa [writeLead, hid] using h

theorem mem_writeLead_elim {db : DB} {u l' : LeadRow}
    (h : l' ∈ (writeLead db u).leads) : l' = u ∨ (l' ∈ db.leads ∧ l'.id ≠ u.id) := by
  rcases List.mem_map.1 h with ⟨x, hx, hfx⟩
  by_cases hxy : x.id = u.id
  · left
    rw [← hfx]; simp [hxy]
  · right
    have hlx : l' = x := by rw [← hfx]; simp [hxy]
    rw [hlx]
    exact ⟨hx, hxy⟩

theorem writeLead_map_id (db : DB) (u : LeadRow) :
    (writeLead db u).leads.map (fun x => x.id) = db.leads.map (fun x => x.id) := by
  show (db.leads.map _).map _ = _
  rw [List.map_map]
  refine List.map_congr_left (fun x _ => ?_)
  by_cases h : x.id = u.id <;> simp [Function.comp, h]

theorem writeLead_writeLead (db : DB) (u : LeadRow) :
    writeLead (writeLead db u) u = writeLead db u := by
  rcases db with ⟨leads, convs⟩
  show DB.mk ((leads.map _).map _) _ = _
  rw [List.map_map]
  refine congrArg (fun l => DB.mk l convs) ?_
  refine List.map_congr_left (fun x _ => ?_)
  by_cases h : x.id = u.id <;> simp [Function.comp, h]

theorem find?_map_update {l : List LeadRow} {lid : Nat} {lead u : LeadRow}
    (hf : l.find? (fun x => x.id == lid) = some lead) (hid : u.id = lead.id) :
    (l.map (fun x => if x.id == u.id then u else x)).find? (fun x => x.id == lid)
      = some u := by
  have hpl : lead.id = lid := by simpa using List.find?_some hf
  induction l with
  | nil => simp at hf
  | cons a l ih =>
    by_cases ha : a.id = lid
    · rw [List.find?_cons_of_pos _ (by simpa using ha)] at hf
      have haeq : a = lead := by simpa using hf
      have h1 : a.id = u.id := by rw [haeq, hid]
      simp only [List.map_cons]
      rw [if_pos (by simpa using h1)]
      exact List.find?_cons_of_pos _ (by simp [hid, hpl])
    · rw [List.find?_cons_of_neg _ (by simpa using ha)] at hf
      have h1 : ¬ a.id = u.id := by rw [hid, hpl]; exact ha
      simp only [List.map_cons]
      rw [if_neg (by simpa using h1)]
      rw [List.find?_cons_of_neg _ (by simpa using ha)]
      exact ih hf

theorem filter_length_map_update {l : List LeadRow} {u : LeadRow} {p : String}
    (hpres : ∀ x ∈ l, x.id = u.id → x.phone = u.phone) :
    ((l.map (fun x => if x.id == u.id then u else x)).filter
        (fun x => x.phone == p)).length
      = (l.filter (fun x => x.phone == p)).length := by
  induction l with
  | nil => rfl
  | cons a l ih =>
    have ih' := ih (fun x hx h => hpres x (List.mem_cons_of_mem _ hx) h)
    by_cases ha : a.id = u.id
    · have hph : a.phone = u.phone := hpres a (List.mem_cons_self _ _) ha
      simp only [List.map_cons]
      rw [if_pos (by simpa using ha)]
      by_cases hup : u.phone = p
      · rw [List.filter_cons_of_pos (by simpa using hup),
            List.filter_cons_of_pos (by simp [hph, hup])]
        simpa using ih'
      · rw [List.filter_cons_of_neg (by simpa using hup),
            List.filter_cons_of_neg (by simp [hph]; exact hup)]
        exact ih'
    · simp only [List.map_cons]
      rw [if_neg (by simpa using ha)]
      by_cases hap : a.phone = p
      · rw [List.filter_cons_of_pos (by simpa using hap),
            List.filter_cons_of_pos (by simpa using hap)]
        simpa using ih'
      · rw [List.filter_cons_of_neg (by simpa using hap),
            List.filter_cons_of_neg (by simpa using hap)]
        exact ih'

theorem le_foldr_max {l : List Nat} {x : Nat} (hx : x ∈ l) :
    x ≤ l.foldr Nat.max 0 := by
  induction l with
  | nil => cases hx
  | cons a l ih =>
    rcases List.mem_cons.1 hx with rfl | h
    · exact Nat.le_max_left _ _
    · exact Nat.le_trans (ih h) (Nat.le_max_right _ _)

theorem freshLeadId_not_mem (db : DB) : ∀ x ∈ db.leads, x.id ≠ freshLeadId db := by
  intro x hx
  have h : x.id ≤ (db.leads.map (fun l => l.id)).foldr Nat.max 0 := by
    simpa using le_foldr_max (List.mem_map_of_mem (fun l => l.id) hx)
  unfold freshLeadId
  omega

theorem receive_error_eq (db : DB) (now : Nat) (jid msg e phone : String)
    (hph : extrair_telefone_whatsapp jid = some phone) :
    receive_lead_message db (.error e) now jid msg
      = ((resolve_lead_state db now phone).1, .failure e) := by
  unfold receive_lead_message resolve_lead_state
  rw [hph]

theorem receive_ok_eq (db : DB) (text : String) (meta : GenMeta) (now : Nat)
    (jid msg phone : String) (hph : extrair_telefone_whatsapp jid = some phone) :
    receive_lead_message db (.ok (text, meta)) now jid msg
      = (let pre := resolve_lead_state db now phone
         let lead2 : LeadRow := { pre.2 with data_ultima_interacao := now }
         let conversation : ConversationRow :=
           { id := freshConvId pre.1, lead_id := lead2.id,
             mensagem_entrada := sanitize_text msg 5000, mensagem_saida := text,
             tokens_input := meta.tokens_input, tokens_output := meta.tokens_output,
             tokens_total := meta.tokens_total, custo_estimado := meta.cost_cents,
             tempo_resposta_ms := meta.latency_ms, timestamp := now }
         let db3 := writeLead
           { pre.1 with conversations := pre.1.conversations ++ [conversation] } lead2
         let db4 := if lead2.status = .AGUARDANDO_RESPOSTA
                    then writeLead db3 (lead2.mark_for_followup 2 now) else db3
         (db4, .success lead2.id phone text meta.tokens_total meta.latency_ms)) := by
  unfold receive_lead_message resolve_lead_state
  rw [hph]

theorem resolve_found_novo {db : DB} {now : Nat} {phone : String} {lead : LeadRow}
    (hf : db.leads.find? (fun l => l.phone == phone) = some lead)
    (hs : lead.status = .NOVO) :
    resolve_lead_state db now phone
      = (writeLead db { lead with status := .EM_TRIAGEM },
         { lead with status := .EM_TRIAGEM }) := by
  unfold resolve_lead_state
  simp [hf, hs]

theorem resolve_found_other {db : DB} {now : Nat} {phone : String} {lead : LeadRow}
    (hf : db.leads.find? (fun l => l.phone == phone) = some lead)
    (hs : ¬ lead.status = .NOVO) :
    resolve_lead_state db now phone = (db, lead) := by
  unfold resolve_lead_state
  simp [hf, hs]

theorem resolve_none {db : DB} {now : Nat} {phone : String}
    (hf : db.leads.find? (fun l => l.phone == phone) = none) :
    resolve_lead_state db now phone
      = (writeLead { db with leads := db.leads ++ [newLead db phone now] }
           { newLead db phone now with status := .EM_TRIAGEM },
         { newLead db phone now with status := .EM_TRIAGEM }) := by
  unfold resolve_lead_state
  simp only [hf]
  rw [if_pos (show (newLead db phone now).status = LeadStatus.NOVO from rfl),
      if_pos (show (newLead db phone now).status = LeadStatus.NOVO from rfl)]

theorem is_eligible_upper (eligible_regions : List String) (code : String)
    (h : ¬ code = "") :
    is_eligible eligible_regions (upperStr code) = is_eligible eligible_regions code := by
  unfold is_eligible
  rw [if_neg h, if_neg (fun hc => h ((upperStr_eq_empty_iff code).1 hc)), upperStr_idem]

theorem is_interest_upper (interest_regions : List String) (code : String)
    (h : ¬ code = "") :
    is_interest_region interest_regions (upperStr code)
      = is_interest_region interest_regions code := by
  unfold is_interest_region
  rw [if_neg h, if_neg (fun hc => h ((upperStr_eq_empty_iff code).1 hc)), upperStr_idem]

/-! ### Claim theorems -/

/-- Claim C10: although `validate_lead_eligibility` delegates the decision to
`OpenAIAgent.check_eligibility`, that method is a pure case-insensitive
membership test containing no API call, and its boolean component coincides
with `RegionalValidator.is_eligible` over the same configured eligible set,
for every region code. -/
theorem check_eligibility_refines_is_eligible (region : String)
    (eligible_regions : List String) :
    (check_eligibility region eligible_regions).1 = is_eligible eligible_regions region :=
  check_eligibility_fst region eligible_regions

/-- Claim C8: `get_region_status` is a pure function of the region code and the two
configured sets; its classification is always one of `eligible`, `interest`,
`unknown`; it is invariant under upper-casing the code (case-insensitive
matching); and the empty (absent) code yields `unknown`. -/
theorem get_region_status_classification
    (eligible_regions interest_regions : List String) (code : String) :
    ((get_region_status eligible_regions interest_regions code).1 = "eligible"
      ∨ (get_region_status eligible_regions interest_regions code).1 = "interest"
      ∨ (get_region_status eligible_regions interest_regions code).1 = "unknown")
    ∧ get_region_status eligible_regions interest_regions code
        = get_region_status eligible_regions interest_regions (upperStr code)
    ∧ (code = "" →
        get_region_status eligible_regions interest_regions code
          = ("unknown", "Região não informada")) := by
  refine ⟨?_, ?_, ?_⟩
  · unfold get_region_status
    by_cases h : code = ""
    · rw [if_pos h]
      right; right; rfl
    · rw [if_neg h]
      simp only []
      by_cases he : is_eligible eligible_regions code = true
      · rw [if_pos he]
        left; rfl
      · rw [if_neg he]
        by_cases hi : is_interest_region interest_regions code = true
        · rw [if_pos hi]
          right; left; rfl
        · rw [if_neg hi]
          right; right; rfl
  · unfold get_region_status
    by_cases h : code = ""
    · rw [if_pos h, if_pos (by rw [h]; rfl)]
    · rw [if_neg h, if_neg (fun hc => h ((upperStr_eq_empty_iff code).1 hc))]
      simp only []
      rw [is_eligible_upper eligible_regions code h,
          is_interest_upper interest_regions code h, upperStr_idem]
  · intro h
    unfold get_region_status
    rw [if_pos h]

/-- Claim C1 counterexample: for a lead with 15 stored conversation rows, the
history built by `_build_conversation_history` is not the turns of the 10
most recent rows (the rows other than the 5 oldest of the sorted list). -/
theorem build_history_not_most_recent :
    ¬ (_build_conversation_history exDB15 1
        = historyTurns
            (((exDB15.conversations.filter (fun c => c.lead_id == 1)).insertionSort
                tsLe).drop 5)) := by
  decide

/-- Claim C1 amended: when the stored rows of a lead are already in chronological
order, `_build_conversation_history` returns the turns of the 10 OLDEST rows
(the first 10 by timestamp), two role-tagged entries per row in chronological
order; for 15 stored rows this yields 20 entries drawn from the earliest 10. -/
theorem build_history_oldest_ten (db : DB) (lead_id : Nat)
    (hs : List.Sorted tsLe (db.conversations.filter (fun c => c.lead_id == lead_id))) :
    _build_conversation_history db lead_id
      = historyTurns ((db.conversations.filter (fun c => c.lead_id == lead_id)).take 10)
    ∧ ((db.conversations.filter (fun c => c.lead_id == lead_id)).length = 15 →
        (_build_conversation_history db lead_id).length = 20) := by
  have he : _build_conversation_history db lead_id
      = historyTurns ((db.conversations.filter (fun c => c.lead_id == lead_id)).take 10) := by
    unfold _build_conversation_history
    rw [List.Sorted.insertionSort_eq hs]
  refine ⟨he, fun h15 => ?_⟩
  rw [he, historyTurns_length, List.length_take, h15]
  decide

/-- Claim C1 witness: the amended statement applied to the concrete database with
15 stored rows. -/
theorem build_history_oldest_ten_witness :
    _build_conversation_history exDB15 1
      = historyTurns ((exDB15.conversations.filter (fun c => c.lead_id == 1)).take 10)
    ∧ ((exDB15.conversations.filter (fun c => c.lead_id == 1)).length = 15 →
        (_build_conversation_history exDB15 1).length = 20) :=
  build_history_oldest_ten exDB15 1 (by decide)

theorem validate_phone_false_of (p : String)
    (h : (digitsOf p).length < 10 ∨ 15 < (digitsOf p).length
         ∨ (digitsOf p).all (fun c => c == '0') = true) :
    validate_phone p = false := by
  unfold validate_phone
  simp only []
  rcases h with h | h | h
  · rw [if_pos (by simp [h])]
  · rw [if_pos (by simp [h])]
  · by_cases h1 : ((digitsOf p).length < 10 || (digitsOf p).length > 15) = true
    · rw [if_pos h1]
    · rw [if_neg h1, if_pos h]

theorem extrair_eq_none_iff (jid : String) :
    extrair_telefone_whatsapp jid = none ↔
      (jid = "" ∨ validate_phone (beforeAt jid) = false) := by
  unfold extrair_telefone_whatsapp
  by_cases h : jid = ""
  · simp [h]
  · rw [if_neg h]
    simp only []
    by_cases hv : validate_phone (beforeAt jid) = true
    · simp [h, hv]
    · simp only [Bool.not_eq_true] at hv
      simp [h, hv]

/-- Claim C4: for every contact key whose part before `@` does not reduce to 10-15
digits, or reduces to all zeros, or which is empty, `receive_lead_message`
returns the invalid-contact failure and leaves the database untouched: no
lead is created or modified and no conversation row is written. -/
theorem receive_invalid_contact (db : DB) (gen : GenOutcome) (now : Nat)
    (jid msg : String)
    (h : jid = "" ∨ (digitsOf (beforeAt jid)).length < 10
         ∨ 15 < (digitsOf (beforeAt jid)).length
         ∨ (digitsOf (beforeAt jid)).all (fun c => c == '0') = true) :
    receive_lead_message db gen now jid msg
      = (db, RMResult.failure "Formato de telefone inválido") := by
  have hex : extrair_telefone_whatsapp jid = none := by
    rcases h with h | h
    · exact (extrair_eq_none_iff jid).2 (Or.inl h)
    · exact (extrair_eq_none_iff jid).2 (Or.inr (validate_phone_false_of _ h))
  unfold receive_lead_message
  rw [hex]

/-- Claim C4 witness: a short contact key is rejected without any persistence. -/
theorem receive_invalid_contact_witness :
    receive_lead_message emptyDB genOk 0 "123@s.whatsapp.net" "oi"
      = (emptyDB, RMResult.failure "Formato de telefone inválido") :=
  receive_invalid_contact emptyDB genOk 0 "123@s.whatsapp.net" "oi"
    (Or.inr (Or.inl (by decide)))

/-- Claim C2: for every valid contact key, when the generation call fails (timeout
or upstream error `e`), `receive_lead_message` returns a failure result, the
returned database is exactly the committed state from before the generation
call (`resolve_lead_state`): the conversations table is unchanged, and the
lead that handles the contact keeps its follow-up fields, its status being the
pre-generation one (`EM_TRIAGEM` exactly when it was `NOVO`, unchanged
otherwise). -/
theorem receive_generation_failure (db : DB) (now : Nat) (jid msg e phone : String)
    (hph : extrair_telefone_whatsapp jid = some phone) :
    receive_lead_message db (.error e) now jid msg
      = ((resolve_lead_state db now phone).1, .failure e)
    ∧ (resolve_lead_state db now phone).1.conversations = db.conversations
    ∧ (∀ lead, db.leads.find? (fun l => l.phone == phone) = some lead →
        (resolve_lead_state db now phone).2.data_proximo_follow_up
            = lead.data_proximo_follow_up
        ∧ (resolve_lead_state db now phone).2.tentativas_follow_up
            = lead.tentativas_follow_up
        ∧ (resolve_lead_state db now phone).2.status
            = (if lead.status = LeadStatus.NOVO then LeadStatus.EM_TRIAGEM
               else lead.status)) := by
  refine ⟨?_, ?_, ?_⟩
  · unfold receive_lead_message resolve_lead_state
    rw [hph]
  · unfold resolve_lead_state
    cases hf : db.leads.find? (fun l => l.phone == phone) with
    | none =>
      simp only []
      by_cases hs : LeadStatus.NOVO = LeadStatus.NOVO
      · rfl
      · exact absurd rfl hs
    | some lead =>
      simp only []
      by_cases hs : lead.status = LeadStatus.NOVO
      · rw [if_pos hs]
        rfl
      · rw [if_neg hs]
  · intro lead hf
    unfold resolve_lead_state
    rw [hf]
    simp only []
    by_cases hs : lead.status = LeadStatus.NOVO
    · rw [if_pos hs, if_pos hs]
      exact ⟨rfl, rfl, rfl⟩
    · rw [if_neg hs, if_neg hs]
      exact ⟨rfl, rfl, rfl⟩

/-- Claim C2 witness: generation failure on a lead awaiting response leaves the
database exactly as it was. -/
theorem receive_generation_failure_witness :
    receive_lead_message awaitingDB (.error "Request timed out.") 1000
        "5511999999999@s.whatsapp.net" "oi"
      = ((resolve_lead_state awaitingDB 1000 "5511999999999").1,
         .failure "Request timed out.")
    ∧ (resolve_lead_state awaitingDB 1000 "5511999999999").1.conversations
        = awaitingDB.conversations
    ∧ (∀ lead, awaitingDB.leads.find? (fun l => l.phone == "5511999999999") = some lead →
        (resolve_lead_state awaitingDB 1000 "5511999999999").2.data_proximo_follow_up
            = lead.data_proximo_follow_up
        ∧ (resolve_lead_state awaitingDB 1000 "5511999999999").2.tentativas_follow_up
            = lead.tentativas_follow_up
        ∧ (resolve_lead_state awaitingDB 1000 "5511999999999").2.status
            = (if lead.status = LeadStatus.NOVO then LeadStatus.EM_TRIAGEM
               else lead.status)) :=
  receive_generation_failure awaitingDB 1000 "5511999999999@s.whatsapp.net" "oi"
    "Request timed out." "5511999999999" (by decide)

/-- Claim C7: `validate_lead_eligibility` fails with the lead-not-found error when
no lead has the id, with the missing-region error when the lead's region is
unset (null or empty), and otherwise records the classification in the
eligibility flag and moves the status to `AGUARDANDO_RESPOSTA` exactly when
the region is eligible, `NAO_ELEGIVEL` otherwise, returning the boolean
outcome together with its description. -/
theorem validate_eligibility_spec (eligible_regions : List String) (db : DB)
    (lead_id : Nat) :
    (db.leads.find? (fun l => l.id == lead_id) = none →
       validate_lead_eligibility eligible_regions db lead_id
         = (db, VEResult.failure "Lead não encontrado"))
    ∧ (∀ lead, db.leads.find? (fun l => l.id == lead_id) = some lead →
        ((lead.regiao = none ∨ lead.regiao = some "") →
          validate_lead_eligibility eligible_regions db lead_id
            = (db, VEResult.failure "Região não informada"))
        ∧ (∀ r, lead.regiao = some r → ¬ r = "" →
            (validate_lead_eligibility eligible_regions db lead_id).2
              = VEResult.success lead_id (is_eligible eligible_regions r)
                  (check_eligibility r eligible_regions).2
            ∧ ∃ l', l' ∈ (validate_lead_eligibility eligible_regions db lead_id).1.leads
                ∧ l'.id = lead.id
                ∧ l'.elegivel = some (is_eligible eligible_regions r)
                ∧ l'.status = (if is_eligible eligible_regions r
                               then LeadStatus.AGUARDANDO_RESPOSTA
                               else LeadStatus.NAO_ELEGIVEL))) := by
  constructor
  · intro hn
    unfold validate_lead_eligibility
    rw [hn]
  · intro lead hf
    constructor
    · intro hr
      unfold validate_lead_eligibility
      simp only [hf]
      rw [if_pos hr]
    · intro r hr hne
      have hnotor : ¬ (lead.regiao = none ∨ lead.regiao = some "") := by
        rintro (h | h)
        · rw [hr] at h; exact Option.noConfusion h
        · rw [hr] at h
          exact hne (Option.some.inj h)
      have hgd : lead.regiao.getD "" = r := by rw [hr]; rfl
      have e1 : validate_lead_eligibility eligible_regions db lead_id
          = (writeLead db
              { lead with
                elegivel := some (check_eligibility (lead.regiao.getD "") eligible_regions).1,
                status := if (check_eligibility (lead.regiao.getD "") eligible_regions).1
                          then .AGUARDANDO_RESPOSTA else .NAO_ELEGIVEL },
             VEResult.success lead_id
               (check_eligibility (lead.regiao.getD "") eligible_regions).1
               (check_eligibility (lead.regiao.getD "") eligible_regions).2) := by
        unfold validate_lead_eligibility
        simp only [hf]
        rw [if_neg hnotor]
      rw [e1]
      rw [hgd] at e1 ⊢
      rw [check_eligibility_fst r eligible_regions]
      refine ⟨rfl, ?_⟩
      exact ⟨_, mem_writeLead_of_mem (List.mem_of_find?_eq_some hf) rfl, rfl, rfl, rfl⟩

/-- Claim C7 witness: the spec scenario — a lead with region `BA` under the default
configuration is classified not eligible and moved to `NAO_ELEGIVEL`. -/
theorem validate_eligibility_spec_witness :
    ((validate_lead_eligibility default_eligible_regions baDB 1).2
        = VEResult.success 1 (is_eligible default_eligible_regions "BA")
            (check_eligibility "BA" default_eligible_regions).2
      ∧ ∃ l', l' ∈ (validate_lead_eligibility default_eligible_regions baDB 1).1.leads
          ∧ l'.id = 1
          ∧ l'.elegivel = some (is_eligible default_eligible_regions "BA")
          ∧ l'.status = (if is_eligible default_eligible_regions "BA"
                         then LeadStatus.AGUARDANDO_RESPOSTA
                         else LeadStatus.NAO_ELEGIVEL))
    ∧ is_eligible default_eligible_regions "BA" = false := by
  refine ⟨?_, by decide⟩
  have h := (validate_eligibility_spec default_eligible_regions baDB 1).2
    { id := 1, phone := "5575999999999", status := .EM_TRIAGEM,
      regiao := some "BA", elegivel := none, tentativas_follow_up := 0,
      data_ultimo_follow_up := none, data_proximo_follow_up := none,
      data_contato := 0, data_ultima_interacao := 0 } (by decide)
  exact h.2 "BA" rfl (by decide)

/-- Claim C9: `validate_lead_eligibility` is idempotent in effect — running it a
second time on the database produced by the first run (region unchanged)
produces exactly the same database, hence the same eligibility flag and
status on the lead. -/
theorem validate_eligibility_idempotent (eligible_regions : List String)
    (db : DB) (lead_id : Nat) :
    (validate_lead_eligibility eligible_regions
        (validate_lead_eligibility eligible_regions db lead_id).1 lead_id).1
      = (validate_lead_eligibility eligible_regions db lead_id).1 := by
  cases hf : db.leads.find? (fun l => l.id == lead_id) with
  | none =>
    have e1 : validate_lead_eligibility eligible_regions db lead_id
        = (db, VEResult.failure "Lead não encontrado") := by
      unfold validate_lead_eligibility
      rw [hf]
    rw [e1]
    show (validate_lead_eligibility eligible_regions db lead_id).1 = db
    rw [e1]
  | some lead =>
    by_cases hr : lead.regiao = none ∨ lead.regiao = some ""
    · have e1 : validate_lead_eligibility eligible_regions db lead_id
          = (db, VEResult.failure "Região não informada") := by
        unfold validate_lead_eligibility
        simp only [hf]
        rw [if_pos hr]
      rw [e1]
      show (validate_lead_eligibility eligible_regions db lead_id).1 = db
      rw [e1]
    · have e1 : validate_lead_eligibility eligible_regions db lead_id
          = (writeLead db
              { lead with
                elegivel := some (check_eligibility (lead.regiao.getD "") eligible_regions).1,
                status := if (check_eligibility (lead.regiao.getD "") eligible_regions).1
                          then .AGUARDANDO_RESPOSTA else .NAO_ELEGIVEL },
             VEResult.success lead_id
               (check_eligibility (lead.regiao.getD "") eligible_regions).1
               (check_eligibility (lead.regiao.getD "") eligible_regions).2) := by
        unfold validate_lead_eligibility
        simp only [hf]
        rw [if_neg hr]
      have hf2 : (writeLead db
            { lead with
              elegivel := some (check_eligibility (lead.regiao.getD "") eligible_regions).1,
              status := if (check_eligibility (lead.regiao.getD "") eligible_regions).1
                        then .AGUARDANDO_RESPOSTA else .NAO_ELEGIVEL }).leads.find?
            (fun l => l.id == lead_id)
          = some
            { lead with
              elegivel := some (check_eligibility (lead.regiao.getD "") eligible_regions).1,
              status := if (check_eligibility (lead.regiao.getD "") eligible_regions).1
                        then .AGUARDANDO_RESPOSTA else .NAO_ELEGIVEL } :=
        find?_map_update hf rfl
      have e2 : validate_lead_eligibility eligible_regions
          (writeLead db
            { lead with
              elegivel := some (check_eligibility (lead.regiao.getD "") eligible_regions).1,
              status := if (check_eligibility (lead.regiao.getD "") eligible_regions).1
                        then .AGUARDANDO_RESPOSTA else .NAO_ELEGIVEL }) lead_id
          = (writeLead
              (writeLead db
                { lead with
                  elegivel := some (check_eligibility (lead.regiao.getD "") eligible_regions).1,
                  status := if (check_eligibility (lead.regiao.getD "") eligible_regions).1
                            then .AGUARDANDO_RESPOSTA else .NAO_ELEGIVEL })
              { lead with
                elegivel := some (check_eligibility (lead.regiao.getD "") eligible_regions).1,
                status := if (check_eligibility (lead.regiao.getD "") eligible_regions).1
                          then .AGUARDANDO_RESPOSTA else .NAO_ELEGIVEL },
             VEResult.success lead_id
               (check_eligibility (lead.regiao.getD "") eligible_regions).1
               (check_eligibility (lead.regiao.getD "") eligible_regions).2) := by
        unfold validate_lead_eligibility
        simp only [hf2]
        rw [if_neg hr]
      rw [e1]
      show (validate_lead_eligibility eligible_regions
          (writeLead db
            { lead with
              elegivel := some (check_eligibility (lead.regiao.getD "") eligible_regions).1,
              status := if (check_eligibility (lead.regiao.getD "") eligible_regions).1
                        then .AGUARDANDO_RESPOSTA else .NAO_ELEGIVEL }) lead_id).1
        = writeLead db
            { lead with
              elegivel := some (check_eligibility (lead.regiao.getD "") eligible_regions).1,
              status := if (check_eligibility (lead.regiao.getD "") eligible_regions).1
                        then .AGUARDANDO_RESPOSTA else .NAO_ELEGIVEL }
      rw [e2]
      exact writeLead_writeLead _ _

theorem nodup_append_fresh (db : DB) (phone : String) (now : Nat)
    (hnd : (db.leads.map (fun x => x.id)).Nodup) :
    ((db.leads ++ [newLead db phone now]).map (fun x => x.id)).Nodup := by
  rw [List.map_append]
  refine List.Nodup.append hnd (List.nodup_singleton _) ?_
  intro a ha hb
  rcases List.mem_map.1 ha with ⟨x, hx, hxa⟩
  have hb' : a = (newLead db phone now).id := by simpa using hb
  exact freshLeadId_not_mem db x hx (by rw [hxa, hb']; rfl)

/-- Claim C6: after a successfully processed message for an existing lead, if
the lead's status is `AGUARDANDO_RESPOSTA` (checked after the conversation is
persisted; message processing never changes a non-`NOVO` status), the
next-follow-up-due time is set to `now + 2` hours, overwriting any prior
value, without advancing the status and without touching the follow-up
attempt counter; if the status is not `AGUARDANDO_RESPOSTA`, the
next-follow-up-due time is not written. -/
theorem receive_followup_scheduling (db : DB) (text : String) (meta : GenMeta)
    (now : Nat) (jid msg phone : String) (lead : LeadRow)
    (hph : extrair_telefone_whatsapp jid = some phone)
    (hf : db.leads.find? (fun l => l.phone == phone) = some lead) :
    (lead.status = LeadStatus.AGUARDANDO_RESPOSTA →
       ∃ l', l' ∈ (receive_lead_message db (.ok (text, meta)) now jid msg).1.leads
         ∧ l'.id = lead.id
         ∧ l'.data_proximo_follow_up = some (now + 2 * 3600)
         ∧ l'.status = lead.status
         ∧ l'.tentativas_follow_up = lead.tentativas_follow_up)
    ∧ (¬ lead.status = LeadStatus.AGUARDANDO_RESPOSTA →
       ∃ l', l' ∈ (receive_lead_message db (.ok (text, meta)) now jid msg).1.leads
         ∧ l'.id = lead.id
         ∧ l'.data_proximo_follow_up = lead.data_proximo_follow_up) := by
  have hmem : lead ∈ db.leads := List.mem_of_find?_eq_some hf
  constructor
  · intro hs
    have hsn : ¬ lead.status = LeadStatus.NOVO := by
      rw [hs]; intro h; exact LeadStatus.noConfusion h
    rw [receive_ok_eq db text meta now jid msg phone hph, resolve_found_other hf hsn]
    simp only []
    rw [if_pos hs]
    exact ⟨_, mem_writeLead_of_mem (mem_writeLead_of_mem hmem rfl) rfl, rfl, rfl, rfl, rfl⟩
  · intro hs
    by_cases hsn : lead.status = LeadStatus.NOVO
    · rw [receive_ok_eq db text meta now jid msg phone hph, resolve_found_novo hf hsn]
      simp only []
      rw [if_neg (show ¬ LeadStatus.EM_TRIAGEM = LeadStatus.AGUARDANDO_RESPOSTA by decide)]
      exact ⟨_, mem_writeLead_of_mem (mem_writeLead_of_mem hmem rfl) rfl, rfl, rfl⟩
    · rw [receive_ok_eq db text meta now jid msg phone hph, resolve_found_other hf hsn]
      simp only []
      rw [if_neg hs]
      exact ⟨_, mem_writeLead_of_mem hmem rfl, rfl, rfl⟩

/-- Claim C6 witness: a lead awaiting response with a stale follow-up time
gets it overwritten with `now + 2h` and keeps its attempt counter. -/
theorem receive_followup_scheduling_witness :
    ((⟨1, "5511999999999", .AGUARDANDO_RESPOSTA, some "SP", some true, 3,
        some 50, some 60, 0, 0⟩ : LeadRow).status = LeadStatus.AGUARDANDO_RESPOSTA →
       ∃ l', l' ∈ (receive_lead_message awaitingDB
           (.ok ("resposta", ⟨none, none, none, none, none⟩)) 1000
           "5511999999999@s.whatsapp.net" "oi").1.leads
         ∧ l'.id = 1
         ∧ l'.data_proximo_follow_up = some (1000 + 2 * 3600)
         ∧ l'.status = LeadStatus.AGUARDANDO_RESPOSTA
         ∧ l'.tentativas_follow_up = 3)
    ∧ (¬ (⟨1, "5511999999999", .AGUARDANDO_RESPOSTA, some "SP", some true, 3,
          some 50, some 60, 0, 0⟩ : LeadRow).status = LeadStatus.AGUARDANDO_RESPOSTA →
       ∃ l', l' ∈ (receive_lead_message awaitingDB
           (.ok ("resposta", ⟨none, none, none, none, none⟩)) 1000
           "5511999999999@s.whatsapp.net" "oi").1.leads
         ∧ l'.id = 1
         ∧ l'.data_proximo_follow_up = some 60) :=
  receive_followup_scheduling awaitingDB "resposta" ⟨none, none, none, none, none⟩
    1000 "5511999999999@s.whatsapp.net" "oi" "5511999999999"
    ⟨1, "5511999999999", .AGUARDANDO_RESPOSTA, some "SP", some true, 3,
      some 50, some 60, 0, 0⟩ (by decide) (by decide)

/-- Claim C5: for every valid contact key, a first message from an unseen
contact leaves the created lead in `EM_TRIAGEM` (created `NOVO`, advanced
within the same processing, whether or not generation succeeds); and the lead
handling the message is never left in `NOVO`: its status after processing is
`EM_TRIAGEM` if it was `NOVO` and unchanged otherwise, so from `NOVO` the only
transition performed by message processing is to `EM_TRIAGEM`. -/
theorem receive_new_lead_screening (db : DB) (gen : GenOutcome) (now : Nat)
    (jid msg phone : String)
    (hph : extrair_telefone_whatsapp jid = some phone)
    (hnd : (db.leads.map (fun x => x.id)).Nodup) :
    (db.leads.find? (fun l => l.phone == phone) = none →
      ∃ l', l' ∈ (receive_lead_message db gen now jid msg).1.leads
        ∧ l'.phone = phone ∧ l'.status = LeadStatus.EM_TRIAGEM)
    ∧ (∀ lead, db.leads.find? (fun l => l.phone == phone) = some lead →
       ∀ l', l' ∈ (receive_lead_message db gen now jid msg).1.leads → l'.id = lead.id →
         l'.status = (if lead.status = LeadStatus.NOVO then LeadStatus.EM_TRIAGEM
                      else lead.status)) := by
  constructor
  · intro hf
    have hmemnl : newLead db phone now
        ∈ ({ db with leads := db.leads ++ [newLead db phone now] } : DB).leads := by
      show newLead db phone now ∈ db.leads ++ [newLead db phone now]
      exact List.mem_append_right _ (List.mem_singleton_self _)
    rcases gen with e | ⟨text, meta⟩
    · rw [receive_error_eq db now jid msg e phone hph, resolve_none hf]
      exact ⟨_, mem_writeLead_of_mem hmemnl rfl, rfl, rfl⟩
    · rw [receive_ok_eq db text meta now jid msg phone hph, resolve_none hf]
      simp only []
      rw [if_neg (show ¬ LeadStatus.EM_TRIAGEM = LeadStatus.AGUARDANDO_RESPOSTA by decide)]
      exact ⟨_, mem_writeLead_of_mem (mem_writeLead_of_mem hmemnl rfl) rfl, rfl, rfl⟩
  · intro lead hf l' hl' hid
    have hmem : lead ∈ db.leads := List.mem_of_find?_eq_some hf
    by_cases hsn : lead.status = LeadStatus.NOVO
    · rw [if_pos hsn]
      rcases gen with e | ⟨text, meta⟩
      · rw [receive_error_eq db now jid msg e phone hph, resolve_found_novo hf hsn] at hl'
        rcases mem_writeLead_elim hl' with rfl | ⟨-, hne⟩
        · rfl
        · exact absurd hid hne
      · rw [receive_ok_eq db text meta now jid msg phone hph, resolve_found_novo hf hsn] at hl'
        simp only [] at hl'
        rw [if_neg (show ¬ LeadStatus.EM_TRIAGEM = LeadStatus.AGUARDANDO_RESPOSTA by decide)] at hl'
        rcases mem_writeLead_elim hl' with rfl | ⟨h2, hne⟩
        · rfl
        · exact absurd hid hne
    · rw [if_neg hsn]
      rcases gen with e | ⟨text, meta⟩
      · rw [receive_error_eq db now jid msg e phone hph, resolve_found_other hf hsn] at hl'
        have hle : l' = lead := List.inj_on_of_nodup_map hnd hl' hmem hid
        rw [hle]
      · rw [receive_ok_eq db text meta now jid msg phone hph, resolve_found_other hf hsn] at hl'
        simp only [] at hl'
        by_cases hag : lead.status = LeadStatus.AGUARDANDO_RESPOSTA
        · rw [if_pos hag] at hl'
          rcases mem_writeLead_elim hl' with rfl | ⟨h2, hne⟩
          · rfl
          · rcases mem_writeLead_elim h2 with rfl | ⟨h3, hne2⟩
            · rfl
            · exact absurd hid hne2
        · rw [if_neg hag] at hl'
          rcases mem_writeLead_elim hl' with rfl | ⟨h2, hne⟩
          · rfl
          · exact absurd hid hne

/-- Claim C5 witness: the first message from an unseen valid contact on an
empty database ends with the lead in `EM_TRIAGEM`. -/
theorem receive_new_lead_screening_witness :
    (emptyDB.leads.find? (fun l => l.phone == "5511999999999") = none →
      ∃ l', l' ∈ (receive_lead_message emptyDB genOk 0
          "5511999999999@s.whatsapp.net" "oi").1.leads
        ∧ l'.phone = "5511999999999" ∧ l'.status = LeadStatus.EM_TRIAGEM)
    ∧ (∀ lead, emptyDB.leads.find? (fun l => l.phone == "5511999999999") = some lead →
       ∀ l', l' ∈ (receive_lead_message emptyDB genOk 0
           "5511999999999@s.whatsapp.net" "oi").1.leads → l'.id = lead.id →
         l'.status = (if lead.status = LeadStatus.NOVO then LeadStatus.EM_TRIAGEM
                      else lead.status)) :=
  receive_new_lead_screening emptyDB genOk 0 "5511999999999@s.whatsapp.net" "oi"
    "5511999999999" (by decide) (by decide)

/-- Claim C3 counterexample: the contact key
`+5511999999999@s.whatsapp.net` is accepted as valid, yet the canonical phone
the operation stores is `+5511999999999`, which is not digits-only: the
claimed digits-only normalization does not happen. -/
theorem receive_phone_not_digits_only :
    extrair_telefone_whatsapp "+5511999999999@s.whatsapp.net" = some "+5511999999999"
    ∧ ¬ (("+5511999999999" : String).data.all Char.isDigit = true)
    ∧ ((receive_lead_message emptyDB genOk 0
          "+5511999999999@s.whatsapp.net" "oi").1.leads.map (fun l => l.phone))
        = ["+5511999999999"] := by
  decide

/-- Claim C3 amended: for every valid contact key, the canonical phone is the
substring before the first `@` taken verbatim — validated to contain 10-15
digits, not all zero, after stripping non-digits, but not itself reduced to
digits — and `receive_lead_message` creates-or-finds exactly one lead row
carrying exactly that string (given the schema invariants: unique ids and at
most one lead per phone). -/
theorem receive_canonical_phone (db : DB) (gen : GenOutcome) (now : Nat)
    (jid msg phone : String)
    (hph : extrair_telefone_whatsapp jid = some phone)
    (hnd : (db.leads.map (fun x => x.id)).Nodup)
    (huniq : (db.leads.filter (fun x => x.phone == phone)).length ≤ 1) :
    phone = beforeAt jid ∧ validate_phone phone = true
    ∧ ((receive_lead_message db gen now jid msg).1.leads.filter
         (fun x => x.phone == phone)).length = 1 := by
  have h0 : ¬ jid = "" := by
    intro h
    unfold extrair_telefone_whatsapp at hph
    rw [if_pos h] at hph
    exact Option.noConfusion hph
  have h12 : validate_phone (beforeAt jid) = true ∧ phone = beforeAt jid := by
    unfold extrair_telefone_whatsapp at hph
    rw [if_neg h0] at hph
    simp only [] at hph
    by_cases hv : validate_phone (beforeAt jid) = true
    · rw [if_pos hv] at hph
      exact ⟨hv, (Option.some.inj hph).symm⟩
    · rw [if_neg hv] at hph
      exact Option.noConfusion hph
  refine ⟨h12.2, by rw [h12.2]; exact h12.1, ?_⟩
  cases hfind : db.leads.find? (fun l => l.phone == phone) with
  | none =>
    have hcnt1 : ((db.leads ++ [newLead db phone now]).filter
        (fun x => x.phone == phone)).length = 1 := by
      rw [List.filter_append]
      have hnil : db.leads.filter (fun x => x.phone == phone) = [] :=
        List.filter_eq_nil_iff.2 (fun x hx => List.find?_eq_none.1 hfind x hx)
      rw [hnil]
      simp [newLead]
    rcases gen with e | ⟨text, meta⟩
    · rw [receive_error_eq db now jid msg e phone hph, resolve_none hfind]
      refine Eq.trans (filter_length_map_update ?_) hcnt1
      intro x hx hid
      rcases List.mem_append.1 hx with hxl | hxr
      · exact absurd (by rw [hid]; rfl) (freshLeadId_not_mem db x hxl)
      · rw [List.mem_singleton.1 hxr]
    · rw [receive_ok_eq db text meta now jid msg phone hph, resolve_none hfind]
      simp only []
      rw [if_neg (show ¬ LeadStatus.EM_TRIAGEM = LeadStatus.AGUARDANDO_RESPOSTA by decide)]
      refine Eq.trans (filter_length_map_update ?_)
        (Eq.trans (filter_length_map_update ?_) hcnt1)
      · intro x hx hid
        rcases mem_writeLead_elim hx with rfl | ⟨hxm, hne⟩
        · rfl
        · exact absurd hid hne
      · intro x hx hid
        rcases List.mem_append.1 hx with hxl | hxr
        · exact absurd (by rw [hid]; rfl) (freshLeadId_not_mem db x hxl)
        · rw [List.mem_singleton.1 hxr]
  | some lead =>
    have hmem : lead ∈ db.leads := List.mem_of_find?_eq_some hfind
    have hpl := List.find?_some hfind
    have hcnt : (db.leads.filter (fun x => x.phone == phone)).length = 1 := by
      have hpos : 0 < (db.leads.filter (fun x => x.phone == phone)).length :=
        List.length_pos_of_mem (List.mem_filter.2 ⟨hmem, hpl⟩)
      omega
    have hinj : ∀ x ∈ db.leads, x.id = lead.id → x.phone = lead.phone := by
      intro x hx hid
      rw [List.inj_on_of_nodup_map hnd hx hmem hid]
    by_cases hsn : lead.status = LeadStatus.NOVO
    · rcases gen with e | ⟨text, meta⟩
      · rw [receive_error_eq db now jid msg e phone hph, resolve_found_novo hfind hsn]
        exact Eq.trans (filter_length_map_update hinj) hcnt
      · rw [receive_ok_eq db text meta now jid msg phone hph, resolve_found_novo hfind hsn]
        simp only []
        rw [if_neg (show ¬ LeadStatus.EM_TRIAGEM = LeadStatus.AGUARDANDO_RESPOSTA by decide)]
        refine Eq.trans (filter_length_map_update ?_)
          (Eq.trans (filter_length_map_update hinj) hcnt)
        intro x hx hid
        rcases mem_writeLead_elim hx with rfl | ⟨hxm, hne⟩
        · rfl
        · exact absurd hid hne
    · rcases gen with e | ⟨text, meta⟩
      · rw [receive_error_eq db now jid msg e phone hph, resolve_found_other hfind hsn]
        exact hcnt
      · rw [receive_ok_eq db text meta now jid msg phone hph, resolve_found_other hfind hsn]
        simp only []
        by_cases hag : lead.status = LeadStatus.AGUARDANDO_RESPOSTA
        · rw [if_pos hag]
          refine Eq.trans (filter_length_map_update ?_)
            (Eq.trans (filter_length_map_update hinj) hcnt)
          intro x hx hid
          rcases mem_writeLead_elim hx with rfl | ⟨hxm, hne⟩
          · rfl
          · exact absurd hid hne
        · rw [if_neg hag]
          exact Eq.trans (filter_length_map_update hinj) hcnt

/-- Claim C8 witness: the classification applied to the lower-case code
`ba` under the default configuration. -/
theorem get_region_status_classification_witness :
    ((get_region_status default_eligible_regions default_interest_regions "ba").1 = "eligible"
      ∨ (get_region_status default_eligible_regions default_interest_regions "ba").1 = "interest"
      ∨ (get_region_status default_eligible_regions default_interest_regions "ba").1 = "unknown")
    ∧ get_region_status default_eligible_regions default_interest_regions "ba"
        = get_region_status default_eligible_regions default_interest_regions (upperStr "ba")
    ∧ ("ba" = "" →
        get_region_status default_eligible_regions default_interest_regions "ba"
          = ("unknown", "Região não informada")) :=
  get_region_status_classification default_eligible_regions default_interest_regions "ba"

/-- Claim C3 witness: the amended statement on an empty database. -/
theorem receive_canonical_phone_witness :
    "5511999999999" = beforeAt "5511999999999@s.whatsapp.net"
    ∧ validate_phone "5511999999999" = true
    ∧ ((receive_lead_message emptyDB genOk 0 "5511999999999@s.whatsapp.net"
          "oi").1.leads.filter (fun x => x.phone == "5511999999999")).length = 1 :=
  receive_canonical_phone emptyDB genOk 0 "5511999999999@s.whatsapp.net" "oi"
    "5511999999999" (by decide) (by decide) (by decide)

end AgenteNaval
